import Mathlib

/-!
Shallow embedding of the Info-section navigation controller
(`Telegram/SourceFiles/info/info_controller.cpp`): the `Key` tagged union,
section descriptors, the abstract and concrete controller operations
(media source, downloads source, search-controller lifecycle, snapshot
validation, migration watcher), together with the collaborator interfaces
they touch.  Machine pointers that may be null are embedded as `Option`,
fatal assertion/precondition failures (`Expects` / `Assert`) as `none`
results of `Option`-valued operations.
-/

namespace Info

/-- Peer identifiers (`PeerId`); `0` plays the role of the null id. -/
abbrev PeerId := Nat

/-- `FullMsgId`: a (peer, message) pair; default-constructed is `⟨0, 0⟩`. -/
structure FullMsgId where
  peerId : PeerId
  msg : Int
deriving DecidableEq

/-- A peer record as the controller observes it: its id and whether it is a
basic chat or a channel (`PeerData::isChat` / `isChannel`). -/
structure PeerData where
  id : PeerId
  isChat : Bool
  isChannel : Bool
deriving DecidableEq

/-- A user record (`UserData`), identified by its id. -/
structure UserData where
  id : PeerId
deriving DecidableEq

/-- A poll record (`PollData`), identified by its id. -/
structure PollData where
  id : Nat
deriving DecidableEq

/-- `Settings::Tag`: carries the settings-owning user (`not_null`). -/
structure SettingsTag where
  self : UserData
deriving DecidableEq

/-- `Info::Key`: the tagged union `std::variant<not_null<PeerData*>,
Settings::Tag, Downloads::Tag, PollKey>`, one constructor per variant. -/
inductive Key where
  | peerKey (peer : PeerData)
  | settingsKey (tag : SettingsTag)
  | downloadsKey
  | pollKey (poll : PollData) (contextId : FullMsgId)
deriving DecidableEq

/-- `Key::peer()`: the stored peer when the peer variant is active,
null (`none`) otherwise. -/
def Key.peer : Key → Option PeerData
  | .peerKey p => some p
  | _ => none

/-- `Key::settingsSelf()`: the tag's owner when the settings variant is
active, null otherwise. -/
def Key.settingsSelf : Key → Option UserData
  | .settingsKey tag => some tag.self
  | _ => none

/-- `Key::isDownloads()`: whether the downloads variant is active. -/
def Key.isDownloads : Key → Bool
  | .downloadsKey => true
  | _ => false

/-- `Key::poll()`: the stored poll when the poll variant is active,
null otherwise. -/
def Key.poll : Key → Option PollData
  | .pollKey p _ => some p
  | _ => none

/-- `Key::pollContextId()`: the stored context id when the poll variant is
active, a default `FullMsgId()` otherwise. -/
def Key.pollContextId : Key → FullMsgId
  | .pollKey _ c => c
  | _ => ⟨0, 0⟩

/-- How many of the four variant accessors report a present value. -/
def Key.presentCount (k : Key) : Nat :=
  k.peer.isSome.toNat + k.settingsSelf.isSome.toNat
    + k.isDownloads.toNat + k.poll.isSome.toNat

/-- `Section::Type`: which sub-view of the subject is active. -/
inductive SType where
  | Profile
  | Media
  | CommonGroups
  | Members
  | Settings
  | Downloads
  | PollResults
deriving DecidableEq

/-- `Storage::SharedMediaType`: the media kind of a Media section;
`kCount` is the out-of-range sentinel used for non-media sections. -/
inductive MediaType where
  | Photo
  | Video
  | MusicFile
  | File
  | VoiceFile
  | Link
  | RoundFile
  | GIF
  | kCount
deriving DecidableEq

/-- `Info::Section`: a section type plus a media type (meaningful for
Media sections). -/
structure Section where
  type : SType
  mediaType : MediaType
deriving DecidableEq

/-- `Controller::SearchQuery` (`Api::DelayedSearchController::Query`):
media type, peer, migrated peer (0 when absent) and query text. -/
structure SearchQuery where
  type : MediaType
  peerId : PeerId
  migratedPeerId : PeerId
  query : String
deriving DecidableEq

/-- Modelled from the spec: the content-search delegate's opaque saved
state (`Api::DelayedSearchController` save/restore payload, not under
src/); it records the delegate's query. -/
structure SearchState where
  query : SearchQuery
deriving DecidableEq

/-- Modelled from the spec: the content-search delegate
(`Api::DelayedSearchController`, not under src/), reduced to the state the
controller observes through `currentQuery`, `saveState` and
`restoreState`. -/
structure DelayedSearchController where
  state : SearchState
deriving DecidableEq

/-- The delegate's `currentQuery()`. -/
def DelayedSearchController.currentQuery (c : DelayedSearchController) :
    SearchQuery :=
  c.state.query

/-- The delegate's `restoreState`: adopt a saved state. -/
def DelayedSearchController.restoreState (s : SearchState) :
    DelayedSearchController :=
  ⟨s⟩

/-- The delegate's `saveState()`: serialize the current state. -/
def DelayedSearchController.saveState (c : DelayedSearchController) :
    SearchState :=
  c.state

/-- Modelled from the spec: the query-field delegate
(`Ui::SearchFieldController`, not under src/), constructed with an initial
text; `query()` returns its current text. -/
structure SearchFieldController where
  query : String
deriving DecidableEq

/-- Modelled from the spec: the navigation snapshot
(`Info::ContentMemento`, declared in info_memento.h which is not under
src/), reduced to the fields the controller reads and writes.
`mediaSearchState` is `some` exactly when the snapshot is a Media-kind
snapshot (`Media::Memento`), i.e. when the `dynamic_cast<Media::Memento*>`
performed by the controller succeeds. -/
structure ContentMemento where
  peer : Option PeerData
  migratedPeerId : PeerId
  settingsSelf : Option UserData
  sect : Section
  searchFieldQuery : String
  searchEnabledByContent : Bool
  searchStartsFocused : Bool
  mediaSearchState : Option SearchState
deriving DecidableEq

/-- The state of a concrete `Info::Controller` that the embedded
operations read and write: the key, the migrated-peer reference (by id),
the current section, the two optional search delegates and the two
search flags. -/
structure ControllerState where
  key : Key
  migrated : Option PeerId
  sect : Section
  searchController : Option DelayedSearchController
  searchFieldController : Option SearchFieldController
  seachEnabledByContent : Bool
  searchStartsFocused : Bool
deriving DecidableEq

/-- `AbstractController::peer()`: the key's peer. -/
def AbstractController.peer (st : ControllerState) : Option PeerData :=
  st.key.peer

/-- `AbstractController::migratedPeerId()`: the migrated peer's id, or
`PeerId(0)` when no migrated peer is recorded. -/
def AbstractController.migratedPeerId (st : ControllerState) : PeerId :=
  match st.migrated with
  | some pid => pid
  | none => 0

/-- `Controller::settingsSelf()`: the key's settings owner. -/
def Controller.settingsSelf (st : ControllerState) : Option UserData :=
  st.key.settingsSelf

/-- A history item as observed here: only its scheduled flag matters
(`HistoryItem::isScheduled()`). -/
structure HistoryItem where
  isScheduled : Bool
deriving DecidableEq

/-- Which shared-media viewer `AbstractController::mediaSource` selects. -/
inductive ViewerKind where
  | sharedScheduledMediaViewer
  | sharedMediaMergedViewer
deriving DecidableEq

/-- `SharedMediaMergedKey` and the `SparseIdsMergedSlice::Key` inside it:
peer id, migrated peer id, anchor universal message id, media type. -/
structure SharedMediaMergedKey where
  peerId : PeerId
  migratedPeerId : PeerId
  universalId : Int
  mediaType : MediaType
deriving DecidableEq

/-- The request `AbstractController::mediaSource` hands to the selected
viewer. -/
structure AbstractMediaRequest where
  viewer : ViewerKind
  key : SharedMediaMergedKey
  limitBefore : Nat
  limitAfter : Nat
deriving DecidableEq

/-- `AbstractController::mediaSource`: `Expects(peer() != nullptr)` is a
fatal precondition (`none`); otherwise look the anchor message up in the
session data, pick the scheduled viewer iff it exists and is scheduled,
and key the viewer with the peer id, the migrated peer id, the anchor and
the section's media type.  `messages` embeds the session data store's
message lookup. -/
def AbstractController.mediaSource
    (messages : PeerId → Int → Option HistoryItem)
    (st : ControllerState) (aroundId : Int)
    (limitBefore limitAfter : Nat) : Option AbstractMediaRequest :=
  match st.key.peer with
  | none => none
  | some p =>
    let isScheduled :=
      match messages p.id aroundId with
      | some item => item.isScheduled
      | none => false
    let mediaViewer :=
      if isScheduled then ViewerKind.sharedScheduledMediaViewer
      else ViewerKind.sharedMediaMergedViewer
    some ⟨mediaViewer,
      ⟨p.id, AbstractController.migratedPeerId st, aroundId,
        st.sect.mediaType⟩,
      limitBefore, limitAfter⟩

/-- One element of the download manager's loading list: the owning
message and the start time (`id.object.item`, `id.started`). -/
structure DownloadingItem where
  item : FullMsgId
  started : Int
deriving DecidableEq

/-- `Info::DownloadsEntry`: a message reference and its start time. -/
structure DownloadsEntry where
  item : FullMsgId
  started : Int
deriving DecidableEq

/-- One emission of `AbstractController::downloadsSource`: rebuild an
entry per element of the manager's current loading list, then sort the
entries ascending by `started`. -/
def AbstractController.buildDownloadsSlice
    (loading : List DownloadingItem) : List DownloadsEntry :=
  List.insertionSort (fun a b => a.started ≤ b.started)
    (loading.map (fun id => ⟨id.item, id.started⟩))

/-- The emission sequence of `AbstractController::downloadsSource`: one
emission immediately (from the loading list at subscription time) and one
per subsequent change notification, each a full rebuild from the
manager's then-current loading list. -/
def AbstractController.downloadsSource
    (initial : List DownloadingItem)
    (changes : List (List DownloadingItem)) :
    List (List DownloadsEntry) :=
  AbstractController.buildDownloadsSlice initial
    :: changes.map AbstractController.buildDownloadsSlice

/-- `Window::SectionShow::Way`. -/
inductive Way where
  | Forward
  | Backward
deriving DecidableEq

/-- `anim::type`. -/
inductive AnimType where
  | instant
  | normal
deriving DecidableEq

/-- `anim::activation`. -/
inductive Activation where
  | foreground
  | background
deriving DecidableEq

/-- `Window::SectionShow`: transition way, animation, activation. -/
structure SectionShow where
  way : Way
  animated : AnimType
  activation : Activation
deriving DecidableEq

/-- The `showSection` call the migration watcher issues: a memento built
from a peer and a section (`std::make_shared<Memento>(peer, section)`)
plus the show parameters. -/
structure ShowSectionCall where
  mementoPeerId : PeerId
  mementoSection : Section
  params : SectionShow
deriving DecidableEq

/-- A navigation request together with whether it was queued through
`InvokeQueued` (deferred to the next event-loop iteration) rather than
issued synchronously from the notification handler. -/
structure QueuedNavigation where
  deferred : Bool
  call : ShowSectionCall
deriving DecidableEq

/-- The migration state of a peer at notification time: its migration
target (`migrateTo`) and migration source (`migrateFrom`), by id. -/
structure PeerMigrationState where
  migrateTo : Option PeerId
  migrateFrom : Option PeerId
deriving DecidableEq

/-- The guard of `Controller::setupMigrationViewer`: the watcher is
installed only when the key resolves to a peer that is a chat or a
channel and no migrated peer is recorded. -/
def Controller.migrationWatcherActive (st : ControllerState) : Bool :=
  match st.key.peer with
  | none => false
  | some p => (p.isChat || p.isChannel) && st.migrated.isNone

/-- The body of `Controller::setupMigrationViewer` at one Migration
peer-flag notification: when the watcher is installed and the filter
`peer->migrateTo() || (peer->migrateFrom() != _migrated)` passes, an
`InvokeQueued` deferred `showSection` is scheduled for the same peer and
the current section, shown Backward, instant, background. -/
def Controller.onMigrationFlagsNotification (st : ControllerState)
    (now : PeerMigrationState) : Option QueuedNavigation :=
  match st.key.peer with
  | none => none
  | some p =>
    if (p.isChat || p.isChannel) && st.migrated.isNone then
      if now.migrateTo.isSome || now.migrateFrom ≠ st.migrated then
        some ⟨true,
          ⟨p.id, st.sect, ⟨Way.Backward, AnimType.instant,
            Activation.background⟩⟩⟩
      else none
    else none

/-- `Controller::validateMementoPeer`: the snapshot's peer, migrated-peer
id and settings owner must all equal the controller's current ones. -/
def Controller.validateMementoPeer (st : ControllerState)
    (memento : ContentMemento) : Bool :=
  memento.peer == AbstractController.peer st
    && memento.migratedPeerId == AbstractController.migratedPeerId st
    && memento.settingsSelf == Controller.settingsSelf st

/-- `Controller::updateSearchControllers`.  `allowSearch` embeds
`SharedMediaAllowSearch` (declared outside src/).  The content-search
delegate is rebuilt for Media sections — asserting that the snapshot is
Media-kind (`none` on assertion failure) and restoring its saved search
state — and nulled otherwise; the query-field delegate is rebuilt from
the snapshot's query string when the section has media, common-groups or
members search, in which case the two flags are copied from the
snapshot, and nulled otherwise. -/
def Controller.updateSearchControllers (allowSearch : MediaType → Bool)
    (st : ControllerState) (memento : ContentMemento) :
    Option ControllerState :=
  let type := st.sect.type
  let isMedia := type == SType.Media
  let mediaType :=
    if isMedia then st.sect.mediaType else MediaType.kCount
  let hasMediaSearch := isMedia && allowSearch mediaType
  let hasCommonGroupsSearch := type == SType.CommonGroups
  let hasMembersSearch :=
    (type == SType.Members) || (type == SType.Profile)
  let searchQuery := memento.searchFieldQuery
  let newSearchController : Option (Option DelayedSearchController) :=
    if isMedia then
      match memento.mediaSearchState with
      | some ss => some (some (DelayedSearchController.restoreState ss))
      | none => none
    else some none
  match newSearchController with
  | none => none
  | some sc =>
    if hasMediaSearch || hasCommonGroupsSearch || hasMembersSearch then
      some { st with
        searchController := sc
        searchFieldController := some ⟨searchQuery⟩
        seachEnabledByContent := memento.searchEnabledByContent
        searchStartsFocused := memento.searchStartsFocused }
    else
      some { st with
        searchController := sc
        searchFieldController := none }

/-- `Controller::setSection`: adopt the snapshot's section, then re-run
search-delegate setup. -/
def Controller.setSection (allowSearch : MediaType → Bool)
    (st : ControllerState) (memento : ContentMemento) :
    Option ControllerState :=
  Controller.updateSearchControllers allowSearch
    { st with sect := memento.sect } memento

/-- `Controller::saveSearchState`: when a query-field delegate exists,
write its text and the enabled-by-content flag into the snapshot; when a
content-search delegate exists, assert the snapshot is Media-kind
(`none` on assertion failure) and store the serialized search state. -/
def Controller.saveSearchState (st : ControllerState)
    (memento : ContentMemento) : Option ContentMemento :=
  let m1 :=
    match st.searchFieldController with
    | some sfc =>
      { memento with
        searchFieldQuery := sfc.query
        searchEnabledByContent := st.seachEnabledByContent }
    | none => memento
  match st.searchController with
  | some sc =>
    match m1.mediaSearchState with
    | some _ => some { m1 with mediaSearchState := some sc.saveState }
    | none => none
  | none => some m1

/-- What `Controller::mediaSource` returns: either the content-search
delegate's `idsSlice(aroundId, limitBefore, limitAfter)` or a
`SharedMediaMergedViewer` keyed as shown. -/
inductive MediaSourceResult where
  | idsSlice (aroundId : Int) (limitBefore limitAfter : Nat)
  | mergedViewer (key : SharedMediaMergedKey)
      (limitBefore limitAfter : Nat)
deriving DecidableEq

/-- `Controller::mediaSource`: unconditionally reads the content-search
delegate's current query (null dereference — `none` — when no delegate
exists); a non-empty query text routes to the delegate's `idsSlice`,
otherwise the merged viewer is keyed by the query's stored peer id,
migrated peer id and media type with the given anchor. -/
def Controller.mediaSource (st : ControllerState) (aroundId : Int)
    (limitBefore limitAfter : Nat) : Option MediaSourceResult :=
  match st.searchController with
  | none => none
  | some c =>
    let query := c.currentQuery
    if !query.query.isEmpty then
      some (.idsSlice aroundId limitBefore limitAfter)
    else
      some (.mergedViewer
        ⟨query.peerId, query.migratedPeerId, aroundId, query.type⟩
        limitBefore limitAfter)

/-- The combined guard deciding whether a query-field delegate is built:
media search (for Media sections passing `SharedMediaAllowSearch`),
common-groups search, or members search (Members or Profile sections). -/
def hasAnySearch (allowSearch : MediaType → Bool) (s : Section) : Bool :=
  ((s.type == SType.Media)
      && allowSearch
        (if s.type == SType.Media then s.mediaType else MediaType.kCount))
    || (s.type == SType.CommonGroups)
    || (s.type == SType.Members)
    || (s.type == SType.Profile)

/-- Closed form of `Controller.updateSearchControllers`. -/
lemma updateSearchControllers_eq (f : MediaType → Bool)
    (st : ControllerState) (m : ContentMemento) :
    Controller.updateSearchControllers f st m =
      if st.sect.type == SType.Media then
        match m.mediaSearchState with
        | none => none
        | some ss =>
          if hasAnySearch f st.sect then
            some { st with
              searchController := some ⟨ss⟩
              searchFieldController := some ⟨m.searchFieldQuery⟩
              seachEnabledByContent := m.searchEnabledByContent
              searchStartsFocused := m.searchStartsFocused }
          else
            some { st with
              searchController := some ⟨ss⟩
              searchFieldController := none }
      else
        if hasAnySearch f st.sect then
          some { st with
            searchController := none
            searchFieldController := some ⟨m.searchFieldQuery⟩
            seachEnabledByContent := m.searchEnabledByContent
            searchStartsFocused := m.searchStartsFocused }
        else
          some { st with
            searchController := none
            searchFieldController := none } := by
  unfold Controller.updateSearchControllers hasAnySearch
  cases hM : (st.sect.type == SType.Media) <;>
    cases hms : m.mediaSearchState <;>
      simp [hM, hms, DelayedSearchController.restoreState, or_assoc]

instance : IsTotal DownloadsEntry
    (fun a b : DownloadsEntry => a.started ≤ b.started) :=
  ⟨fun a b => Int.le_total a.started b.started⟩

instance : IsTrans DownloadsEntry
    (fun a b : DownloadsEntry => a.started ≤ b.started) :=
  ⟨fun _ _ _ h1 h2 => le_trans h1 h2⟩

/-- C5: for every Key, exactly one of the accessors peer(),
settingsSelf(), isDownloads(), poll() yields a present value — the one
matching the stored variant — and every other accessor returns an
absent/null/default value (pollContextId defaults as well). -/
theorem Key.exactly_one_accessor_present (k : Key) :
    k.presentCount = 1
    ∧ (k.peer.isSome = true → k.settingsSelf = none
        ∧ k.isDownloads = false ∧ k.poll = none ∧ k.pollContextId = ⟨0, 0⟩)
    ∧ (k.settingsSelf.isSome = true → k.peer = none
        ∧ k.isDownloads = false ∧ k.poll = none ∧ k.pollContextId = ⟨0, 0⟩)
    ∧ (k.isDownloads = true → k.peer = none ∧ k.settingsSelf = none
        ∧ k.poll = none ∧ k.pollContextId = ⟨0, 0⟩)
    ∧ (k.poll.isSome = true → k.peer = none ∧ k.settingsSelf = none
        ∧ k.isDownloads = false)
    ∧ (∀ p, (Key.peerKey p).peer = some p)
    ∧ (∀ t, (Key.settingsKey t).settingsSelf = some t.self)
    ∧ (Key.downloadsKey.isDownloads = true)
    ∧ (∀ p c, (Key.pollKey p c).poll = some p
        ∧ (Key.pollKey p c).pollContextId = c) := by
  cases k <;>
    simp [Key.presentCount, Key.peer, Key.settingsSelf, Key.isDownloads,
      Key.poll, Key.pollContextId]

/-- Witness for C5 at the downloads Key. -/
theorem Key.exactly_one_accessor_present_witness :
    Key.downloadsKey.presentCount = 1
    ∧ Key.downloadsKey.peer = none
    ∧ Key.downloadsKey.settingsSelf = none
    ∧ Key.downloadsKey.poll = none :=
  ⟨(Key.exactly_one_accessor_present Key.downloadsKey).1,
    ((Key.exactly_one_accessor_present Key.downloadsKey).2.2.2.1 rfl).1,
    ((Key.exactly_one_accessor_present Key.downloadsKey).2.2.2.1 rfl).2.1,
    ((Key.exactly_one_accessor_present Key.downloadsKey).2.2.2.1 rfl).2.2.1⟩

/-- C8: validateMementoPeer returns true iff the snapshot's peer,
migrated-peer id and settings owner all equal the controller's current
ones exactly; a mismatch in any of the three yields false. -/
theorem Controller.validateMementoPeer_iff (st : ControllerState)
    (m : ContentMemento) :
    Controller.validateMementoPeer st m = true
    ↔ (m.peer = AbstractController.peer st
      ∧ m.migratedPeerId = AbstractController.migratedPeerId st
      ∧ m.settingsSelf = Controller.settingsSelf st) := by
  simp [Controller.validateMementoPeer, and_assoc]

/-- C9: restoring search state (updateSearchControllers on a Media
section) or saving it (saveSearchState with a content-search delegate
present) hits the fatal `Assert` exactly when the snapshot is not
Media-kind; with a Media-kind snapshot the operation completes. -/
theorem Controller.searchState_assert_media_kind (f : MediaType → Bool)
    (st : ControllerState) (m : ContentMemento) :
    (Controller.updateSearchControllers f st m = none
      ↔ (st.sect.type = SType.Media ∧ m.mediaSearchState = none))
    ∧ (Controller.saveSearchState st m = none
      ↔ (st.searchController.isSome = true ∧ m.mediaSearchState = none)) := by
  constructor
  · rw [updateSearchControllers_eq]
    cases hM : (st.sect.type == SType.Media) <;>
      cases hms : m.mediaSearchState <;>
        simp_all <;> split <;> simp
  · unfold Controller.saveSearchState
    cases hc : st.searchController <;>
      cases hf : st.searchFieldController <;>
        cases hms : m.mediaSearchState <;> simp [hms]

/-- C6: every emission of downloadsSource is a full rebuild from the
manager's current loading list — one entry per in-flight item, keeping
its message reference and start time — sorted non-decreasing by
`started`; the source emits once immediately and once per change
notification. -/
theorem AbstractController.downloadsSource_sorted_rebuild
    (initial : List DownloadingItem)
    (changes : List (List DownloadingItem))
    (l : List DownloadingItem) :
    AbstractController.downloadsSource initial changes
      = (initial :: changes).map AbstractController.buildDownloadsSlice
    ∧ (AbstractController.downloadsSource initial changes).length
      = changes.length + 1
    ∧ (AbstractController.buildDownloadsSlice l).Perm
        (l.map (fun id => ⟨id.item, id.started⟩))
    ∧ List.Sorted (fun a b : DownloadsEntry => a.started ≤ b.started)
        (AbstractController.buildDownloadsSlice l) := by
  refine ⟨rfl, by simp [AbstractController.downloadsSource], ?_, ?_⟩
  · exact List.perm_insertionSort _ _
  · exact List.sorted_insertionSort _ _

/-- What a successful `updateSearchControllers` run leaves in the
controller: delegate presence and the restored field text and flags. -/
lemma updateSearchControllers_some_spec (f : MediaType → Bool)
    (st st' : ControllerState) (m : ContentMemento)
    (h : Controller.updateSearchControllers f st m = some st') :
    st'.searchController.isSome = (st.sect.type == SType.Media)
    ∧ st'.searchFieldController.isSome = hasAnySearch f st.sect
    ∧ st'.searchFieldController
      = (if hasAnySearch f st.sect then some ⟨m.searchFieldQuery⟩ else none)
    ∧ st'.seachEnabledByContent
      = (if hasAnySearch f st.sect then m.searchEnabledByContent
        else st.seachEnabledByContent) := by
  rw [updateSearchControllers_eq] at h
  cases hM : (st.sect.type == SType.Media) <;> rw [hM] at h
  · cases hA : hasAnySearch f st.sect <;> rw [hA] at h <;>
      simp at h <;> subst h <;> simp [hM, hA]
  · cases hms : m.mediaSearchState <;> rw [hms] at h
    · simp at h
    · cases hA : hasAnySearch f st.sect <;> rw [hA] at h <;>
        simp at h <;> subst h <;> simp [hM, hA]

/-- C3: after updateSearchControllers succeeds, the content-search
delegate exists iff the section type is Media; the query-field delegate
exists iff the section supports media, common-groups or members search,
and its initial text is the snapshot's saved query string; for a
Downloads section neither delegate exists. -/
theorem Controller.updateSearchControllers_delegates (f : MediaType → Bool)
    (st st' : ControllerState) (m : ContentMemento)
    (h : Controller.updateSearchControllers f st m = some st') :
    st'.searchController.isSome = (st.sect.type == SType.Media)
    ∧ st'.searchFieldController.isSome = hasAnySearch f st.sect
    ∧ (∀ sfc, st'.searchFieldController = some sfc →
        sfc.query = m.searchFieldQuery)
    ∧ (st.sect.type = SType.Downloads →
        st'.searchController = none ∧ st'.searchFieldController = none) := by
  obtain ⟨h1, h2, h3, _⟩ := updateSearchControllers_some_spec f st st' m h
  refine ⟨h1, h2, ?_, ?_⟩
  · intro sfc hs
    rw [h3] at hs
    split at hs
    · cases hs
      rfl
    · cases hs
  · intro hD
    have hAe : hasAnySearch f st.sect = false := by
      unfold hasAnySearch
      rw [hD]
      rfl
    constructor
    · rw [hD] at h1
      cases hsc : st'.searchController
      · rfl
      · rw [hsc] at h1
        simp at h1
    · rw [hAe] at h3
      simpa using h3

/-- Witness for C3: a Downloads section builds neither delegate. -/
theorem Controller.updateSearchControllers_delegates_witness :
    Controller.updateSearchControllers (fun _ => false)
        ⟨Key.downloadsKey, none, ⟨SType.Downloads, MediaType.kCount⟩,
          none, none, false, false⟩
        ⟨none, 0, none, ⟨SType.Downloads, MediaType.kCount⟩, "", false,
          false, none⟩
      = some ⟨Key.downloadsKey, none, ⟨SType.Downloads, MediaType.kCount⟩,
          none, none, false, false⟩
    ∧ (⟨Key.downloadsKey, none, ⟨SType.Downloads, MediaType.kCount⟩,
          none, none, false, false⟩ : ControllerState).searchController
        = none
    ∧ (⟨Key.downloadsKey, none, ⟨SType.Downloads, MediaType.kCount⟩,
          none, none, false, false⟩ : ControllerState).searchFieldController
        = none :=
  ⟨rfl,
    ((Controller.updateSearchControllers_delegates (fun _ => false)
      ⟨Key.downloadsKey, none, ⟨SType.Downloads, MediaType.kCount⟩,
        none, none, false, false⟩
      ⟨Key.downloadsKey, none, ⟨SType.Downloads, MediaType.kCount⟩,
        none, none, false, false⟩
      ⟨none, 0, none, ⟨SType.Downloads, MediaType.kCount⟩, "", false,
        false, none⟩ rfl).2.2.2 rfl).1,
    ((Controller.updateSearchControllers_delegates (fun _ => false)
      ⟨Key.downloadsKey, none, ⟨SType.Downloads, MediaType.kCount⟩,
        none, none, false, false⟩
      ⟨Key.downloadsKey, none, ⟨SType.Downloads, MediaType.kCount⟩,
        none, none, false, false⟩
      ⟨none, 0, none, ⟨SType.Downloads, MediaType.kCount⟩, "", false,
        false, none⟩ rfl).2.2.2 rfl).2⟩

/-- C10: `Controller::mediaSource` reads the content-search delegate
before any guard, so it is defined exactly when that delegate exists;
for any state produced by `updateSearchControllers` that is exactly when
the section type is Media, and for any other section the operation is
undefined (the embedded null dereference yields `none`). -/
theorem Controller.mediaSource_requires_delegate (st : ControllerState)
    (aroundId : Int) (lb la : Nat) :
    ((Controller.mediaSource st aroundId lb la).isSome
      = st.searchController.isSome)
    ∧ (∀ (f : MediaType → Bool) (m : ContentMemento)
        (st' : ControllerState),
        Controller.updateSearchControllers f st m = some st' →
        (Controller.mediaSource st' aroundId lb la).isSome
          = (st.sect.type == SType.Media)) := by
  have base : ∀ s : ControllerState,
      (Controller.mediaSource s aroundId lb la).isSome
        = s.searchController.isSome := by
    intro s
    unfold Controller.mediaSource
    cases s.searchController
    · rfl
    · simp only []
      split <;> rfl
  refine ⟨base st, ?_⟩
  intro f m st' h
  rw [base st']
  exact (updateSearchControllers_some_spec f st st' m h).1

/-- Witness for C10: with a Media section's delegate present the
operation is defined. -/
theorem Controller.mediaSource_requires_delegate_witness :
    (Controller.mediaSource
        ⟨Key.peerKey ⟨7, true, false⟩, none,
          ⟨SType.Media, MediaType.Photo⟩,
          some ⟨⟨⟨MediaType.Photo, 7, 0, ""⟩⟩⟩, some ⟨""⟩, false, false⟩
        5 10 10).isSome = true :=
  (Controller.mediaSource_requires_delegate
      ⟨Key.peerKey ⟨7, true, false⟩, none,
        ⟨SType.Media, MediaType.Photo⟩, none, none, false, false⟩
      5 10 10).2 (fun _ => true)
    ⟨none, 0, none, ⟨SType.Media, MediaType.Photo⟩, "", false, false,
      some ⟨⟨MediaType.Photo, 7, 0, ""⟩⟩⟩
    ⟨Key.peerKey ⟨7, true, false⟩, none, ⟨SType.Media, MediaType.Photo⟩,
      some ⟨⟨⟨MediaType.Photo, 7, 0, ""⟩⟩⟩, some ⟨""⟩, false, false⟩
    rfl

/-- C4 counterexample: for a Downloads section no query-field delegate
is built, so the immediate save writes nothing back — the second
snapshot keeps its own query string ("" here) while the first snapshot
carried "a". -/
theorem Controller.searchState_roundtrip_counterexample :
    (Controller.updateSearchControllers (fun _ => false)
        ⟨Key.downloadsKey, none, ⟨SType.Downloads, MediaType.kCount⟩,
          none, none, false, false⟩
        ⟨none, 0, none, ⟨SType.Downloads, MediaType.kCount⟩, "a", true,
          false, none⟩).bind
      (fun st1 => Controller.saveSearchState st1
        ⟨none, 0, none, ⟨SType.Downloads, MediaType.kCount⟩, "", false,
          false, none⟩)
      = some ⟨none, 0, none, ⟨SType.Downloads, MediaType.kCount⟩, "",
          false, false, none⟩
    ∧ ("" : String) ≠ "a" :=
  ⟨rfl, by decide⟩

/-- C4 (amended): when the section instantiates a query-field delegate,
updateSearchControllers followed immediately by saveSearchState (no
intervening query changes) writes the first snapshot's query string and
enabled-by-content flag into the second snapshot. -/
theorem Controller.searchState_roundtrip (f : MediaType → Bool)
    (st st1 : ControllerState) (m1 m2 m2f : ContentMemento)
    (h1 : Controller.updateSearchControllers f st m1 = some st1)
    (h2 : st1.searchFieldController.isSome = true)
    (h3 : Controller.saveSearchState st1 m2 = some m2f) :
    m2f.searchFieldQuery = m1.searchFieldQuery
    ∧ m2f.searchEnabledByContent = m1.searchEnabledByContent := by
  obtain ⟨_, hA, hsfc, hen⟩ := updateSearchControllers_some_spec f st st1 m1 h1
  have hAt : hasAnySearch f st.sect = true := by
    rw [← hA]
    exact h2
  rw [hAt] at hsfc hen
  simp at hsfc hen
  unfold Controller.saveSearchState at h3
  rw [hsfc] at h3
  cases hsc : st1.searchController <;> rw [hsc] at h3
  · simp at h3
    subst h3
    exact ⟨rfl, hen⟩
  · cases hms : m2.mediaSearchState <;> simp [hms] at h3
    subst h3
    exact ⟨rfl, hen⟩

/-- Witness for C4 (amended): a Profile section round-trips "hello" and
the true flag. -/
theorem Controller.searchState_roundtrip_witness :
    ((⟨none, 0, none, ⟨SType.Profile, MediaType.kCount⟩, "hello", true,
        false, none⟩ : ContentMemento).searchFieldQuery,
      (⟨none, 0, none, ⟨SType.Profile, MediaType.kCount⟩, "hello", true,
        false, none⟩ : ContentMemento).searchEnabledByContent)
      = ("hello", true)
    ∧ ((⟨none, 0, none, ⟨SType.Profile, MediaType.kCount⟩, "hello", true,
        true, none⟩ : ContentMemento).searchFieldQuery = "hello"
      ∧ (⟨none, 0, none, ⟨SType.Profile, MediaType.kCount⟩, "hello", true,
        true, none⟩ : ContentMemento).searchEnabledByContent = true) :=
  ⟨rfl,
    Controller.searchState_roundtrip (fun _ => false)
      ⟨Key.peerKey ⟨7, true, false⟩, none,
        ⟨SType.Profile, MediaType.kCount⟩, none, none, false, false⟩
      ⟨Key.peerKey ⟨7, true, false⟩, none,
        ⟨SType.Profile, MediaType.kCount⟩, none, some ⟨"hello"⟩, true,
        false⟩
      ⟨none, 0, none, ⟨SType.Profile, MediaType.kCount⟩, "hello", true,
        false, none⟩
      ⟨none, 0, none, ⟨SType.Profile, MediaType.kCount⟩, "x", false,
        true, none⟩
      ⟨none, 0, none, ⟨SType.Profile, MediaType.kCount⟩, "hello", true,
        true, none⟩
      rfl rfl rfl⟩

/-- C1: with the key resolving to a chat-or-channel peer and no migrated
peer recorded, a Migration peer-flag notification passing the filter
(the peer acquired a migration target, or its migration source differs
from the recorded migrated peer) schedules a deferred showSection for
the same peer and the unchanged current section, way Backward, instant
animation, background activation. -/
theorem Controller.migration_schedules_deferred_showSection
    (st : ControllerState) (p : PeerData) (now : PeerMigrationState)
    (hp : st.key.peer = some p)
    (hcc : p.isChat = true ∨ p.isChannel = true)
    (hm : st.migrated = none)
    (hf : now.migrateTo.isSome = true ∨ now.migrateFrom ≠ st.migrated) :
    Controller.onMigrationFlagsNotification st now
      = some ⟨true, ⟨p.id, st.sect,
          ⟨Way.Backward, AnimType.instant, Activation.background⟩⟩⟩ := by
  unfold Controller.onMigrationFlagsNotification
  rw [hp]
  have hguard : ((p.isChat || p.isChannel) && st.migrated.isNone) = true := by
    rcases hcc with h | h <;> simp [h, hm]
  have hfilter :
      (now.migrateTo.isSome || decide (now.migrateFrom ≠ st.migrated))
        = true := by
    rcases hf with h | h <;> simp [h]
  simp [hguard, hfilter]
  intro hnone
  rcases hf with h | h
  · rw [hnone] at h
    exact absurd h (by simp)
  · exact h

/-- Witness for C1: a chat peer whose notification reports a migration
target. -/
theorem Controller.migration_schedules_deferred_showSection_witness :
    Controller.onMigrationFlagsNotification
        ⟨Key.peerKey ⟨7, true, false⟩, none,
          ⟨SType.Profile, MediaType.kCount⟩, none, none, false, false⟩
        ⟨some 9, none⟩
      = some ⟨true, ⟨7, ⟨SType.Profile, MediaType.kCount⟩,
          ⟨Way.Backward, AnimType.instant, Activation.background⟩⟩⟩ :=
  Controller.migration_schedules_deferred_showSection
    ⟨Key.peerKey ⟨7, true, false⟩, none,
      ⟨SType.Profile, MediaType.kCount⟩, none, none, false, false⟩
    ⟨7, true, false⟩ ⟨some 9, none⟩ rfl (Or.inl rfl) rfl (Or.inl rfl)

/-- C2: a Media-section controller's mediaSource returns the
content-search delegate's idsSlice when the delegate's current query
text is non-empty, and otherwise the merged-history viewer keyed by the
delegate's stored peer id, migrated peer id and media type with the
given anchor and limits. -/
theorem Controller.mediaSource_search_routing (st : ControllerState)
    (c : DelayedSearchController) (aroundId : Int) (lb la : Nat)
    (hc : st.searchController = some c) :
    (c.currentQuery.query.isEmpty = false →
      Controller.mediaSource st aroundId lb la
        = some (.idsSlice aroundId lb la))
    ∧ (c.currentQuery.query.isEmpty = true →
      Controller.mediaSource st aroundId lb la
        = some (.mergedViewer
            ⟨c.currentQuery.peerId, c.currentQuery.migratedPeerId,
              aroundId, c.currentQuery.type⟩ lb la)) := by
  unfold Controller.mediaSource
  rw [hc]
  constructor <;> intro h <;> simp [h]

/-- Witness for C2: a delegate holding query "cats" routes to idsSlice. -/
theorem Controller.mediaSource_search_routing_witness :
    Controller.mediaSource
        ⟨Key.peerKey ⟨7, true, false⟩, none,
          ⟨SType.Media, MediaType.Photo⟩,
          some ⟨⟨⟨MediaType.Photo, 7, 0, "cats"⟩⟩⟩, some ⟨"cats"⟩, false,
          false⟩ 5 10 10
      = some (.idsSlice 5 10 10) :=
  (Controller.mediaSource_search_routing
      ⟨Key.peerKey ⟨7, true, false⟩, none,
        ⟨SType.Media, MediaType.Photo⟩,
        some ⟨⟨⟨MediaType.Photo, 7, 0, "cats"⟩⟩⟩, some ⟨"cats"⟩, false,
        false⟩
      ⟨⟨⟨MediaType.Photo, 7, 0, "cats"⟩⟩⟩ 5 10 10 rfl).1 rfl

/-- C7: under the precondition that the key resolves to a peer,
AbstractController::mediaSource selects the scheduled viewer exactly
when the anchor message exists and is scheduled, keys the viewer with
the peer id, the migrated peer id (0 when no migrated peer), the anchor
and the section's media type; without a peer the operation is a fatal
precondition violation. -/
theorem AbstractController.mediaSource_spec
    (messages : PeerId → Int → Option HistoryItem)
    (st : ControllerState) (p : PeerData) (aroundId : Int)
    (lb la : Nat) (hp : st.key.peer = some p) :
    AbstractController.mediaSource messages st aroundId lb la
      = some ⟨(if (match messages p.id aroundId with
            | some item => item.isScheduled
            | none => false)
          then ViewerKind.sharedScheduledMediaViewer
          else ViewerKind.sharedMediaMergedViewer),
        ⟨p.id, AbstractController.migratedPeerId st, aroundId,
          st.sect.mediaType⟩, lb, la⟩
    ∧ (st.migrated = none → AbstractController.migratedPeerId st = 0)
    ∧ (∀ st2 : ControllerState, st2.key.peer = none →
        AbstractController.mediaSource messages st2 aroundId lb la
          = none) := by
  refine ⟨?_, ?_, ?_⟩
  · unfold AbstractController.mediaSource
    rw [hp]
  · intro h
    simp [AbstractController.migratedPeerId, h]
  · intro st2 h2
    unfold AbstractController.mediaSource
    rw [h2]

/-- Witness for C7: a scheduled anchor message selects the scheduled
viewer, keyed with migrated id 0. -/
theorem AbstractController.mediaSource_spec_witness :
    AbstractController.mediaSource (fun _ _ => some ⟨true⟩)
        ⟨Key.peerKey ⟨7, true, false⟩, none,
          ⟨SType.Media, MediaType.Photo⟩, none, none, false, false⟩
        5 10 10
      = some ⟨ViewerKind.sharedScheduledMediaViewer,
          ⟨7, 0, 5, MediaType.Photo⟩, 10, 10⟩ :=
  (AbstractController.mediaSource_spec (fun _ _ => some ⟨true⟩)
      ⟨Key.peerKey ⟨7, true, false⟩, none,
        ⟨SType.Media, MediaType.Photo⟩, none, none, false, false⟩
      ⟨7, true, false⟩ 5 10 10 rfl).1

end Info
